import Mathlib

/-!
Verification of the GHG marginal-abatement-cost (MAC) curve model
(`ghg_mac.cpp`) and the building heat/cool demand calibration
(`building_heat_cool_dmd_technology.cpp`).

Conventions of the embedding:
* C++ `double` values are modelled as exact rationals (`ℚ`);
* C++ `int` values are modelled as `ℤ`, and C++ integer division
  (truncation toward zero) as `Int.tdiv`;
* the external curve abstraction is a black box: a `getY` query that may
  report a failure sentinel (modelled as `Option.none`, the source compares
  against `-DBL_MAX`), plus its domain bounds `minX`/`maxX`;
* the external marketplace and model-time services are passed explicitly;
* a log message at ERROR level is modelled as a `Bool` flag in the result
  of `getMACValue`.
-/

/-- The external curve abstraction (`util/curves`), treated as a black box:
`getY` returns `none` when the underlying query reports its failure
sentinel (`-DBL_MAX` in the source); `minX`/`maxX` are the domain bounds
(`getMinX()` / `getMaxX()`). -/
structure Curve where
  getY : ℚ → Option ℚ
  minX : ℚ
  maxX : ℚ

/-- `Curve::clone` returns a deep copy; with value semantics this is the
identity on the curve value (same points, independently owned). -/
def Curve.clone (c : Curve) : Curve := c

/-- The external marketplace service: `price n r p` is the price of market
`n` in region `r` at period `p`, `none` when there is no market price
(the source's `Marketplace::NO_MARKET_PRICE` sentinel). -/
structure Marketplace where
  price : String → String → ℤ → Option ℚ

/-- `Marketplace::getPrice` with `mustExist = true`: the market is expected
to exist; a missing price degrades to 0. -/
def Marketplace.getPrice (mp : Marketplace) (n r : String) (p : ℤ) : ℚ :=
  (mp.price n r p).getD 0

/-- Modelled from the spec: the calendar/period service (`Modeltime`, not
under `src/`). `per_to_yr` is the spec's `periodToYear(period)`;
`yr_to_per` is the inverse direction, the period index corresponding to a
calendar year, which the spec's step 7 refers to as "the
final-reduction-year's period index". -/
structure Modeltime where
  per_to_yr : ℤ → ℤ
  yr_to_per : ℤ → ℤ

/-- The market name hard-coded in `GhgMAC::findReduction`. -/
def co2Name : String := "CO2"

/-- The `GhgMAC` object: the MAC curve plus its eight configuration
fields, and the `name` member used only for XML output. -/
structure GhgMAC where
  name : String
  phaseIn : ℚ
  fuelShiftRange : ℚ
  costReductionRate : ℚ
  baseCostYear : ℤ
  finalReduction : ℚ
  finalReductionYear : ℤ
  noBelowZero : Bool
  curveShiftFuelName : String
  macCurve : Curve

/-- `GhgMAC::copy`: copies the curve (deep copy via `clone`) and the eight
configuration fields onto `this`; the `name` member is not copied. -/
def GhgMAC.copy (this other : GhgMAC) : GhgMAC :=
  { name := this.name
    macCurve := other.macCurve.clone
    phaseIn := other.phaseIn
    fuelShiftRange := other.fuelShiftRange
    costReductionRate := other.costReductionRate
    baseCostYear := other.baseCostYear
    finalReduction := other.finalReduction
    finalReductionYear := other.finalReductionYear
    noBelowZero := other.noBelowZero
    curveShiftFuelName := other.curveShiftFuelName }

/-- `GhgMAC::clone`: the copy constructor default-initializes `name` to the
empty string and then runs `copy`. -/
def GhgMAC.clone (m : GhgMAC) : GhgMAC :=
  GhgMAC.copy { m with name := "" } m

/-- `GhgMAC::adjustPhaseIn`: the phase-in multiplier. In the source,
`period - 1` is computed in `int` and promoted to `double` for the
comparison and the division. -/
def GhgMAC.adjustPhaseIn (m : GhgMAC) (period : ℤ) : ℚ :=
  if ((period : ℚ) - 1 < m.phaseIn) ∧ (1 ≤ m.phaseIn) then
    ((period : ℚ) - 1) / m.phaseIn
  else 1

/-- `GhgMAC::adjustTechCh`: the technological-change cap multiplier. The
source expression `change * ( 1 / ( finalReductionPeriod - 2 ) ) * ( period - 2 )`
evaluates `1 / ( finalReductionPeriod - 2 )` in C++ `int` arithmetic
(truncation toward zero), modelled by `Int.tdiv`. -/
def GhgMAC.adjustTechCh (m : GhgMAC) (period finalReductionPeriod : ℤ)
    (maxReduction : ℚ) : ℚ :=
  let change : ℚ := maxReduction / m.finalReduction
  if period ≤ finalReductionPeriod then
    change * (((1 : ℤ).tdiv (finalReductionPeriod - 2) : ℤ) : ℚ)
      * (((period - 2 : ℤ)) : ℚ)
  else change

/-- `GhgMAC::shiftNatGas`: fuel-price-driven carbon-price shift. The source
initializers `NORM_FACTOR = 3 / 5` and the two `( 1 / 2 )` factors of
`convergenceFactor` are C++ `int` divisions (truncation toward zero),
modelled by `Int.tdiv`. -/
def GhgMAC.shiftNatGas (m : GhgMAC) (mp : Marketplace) (period : ℤ)
    (regionName : String) (carbonPrice : ℚ) : ℚ :=
  let natGasPrice := mp.getPrice m.curveShiftFuelName regionName period
  -- prices are taken relative to period 1
  let natGasBasePrice := mp.getPrice m.curveShiftFuelName regionName 1
  let priceChangeRatio : ℚ :=
    if natGasPrice ≠ 0 then natGasBasePrice / natGasPrice else 1
  let NORM_FACTOR : ℚ := (((3 : ℤ).tdiv 5 : ℤ) : ℚ)
  let minCarbonPrice := m.macCurve.minX
  let maxCarbonPrice := m.macCurve.maxX
  let convergenceFactor : ℚ :=
    (((1 : ℤ).tdiv 2 : ℤ) : ℚ) + (((1 : ℤ).tdiv 2 : ℤ) : ℚ)
      * ((maxCarbonPrice - carbonPrice) / (maxCarbonPrice - minCarbonPrice))
  let newCarbonPrice :=
    carbonPrice + NORM_FACTOR * (1 - priceChangeRatio) * m.fuelShiftRange
      * convergenceFactor
  -- reset carbon price if beyond MAC curve values
  min (max newCarbonPrice minCarbonPrice) maxCarbonPrice

/-- `GhgMAC::shiftCostReduction`: multiplier for cost reduction over time;
`numberYears` is the elapsed time from `baseCostYear` to the period's
calendar year. -/
def GhgMAC.shiftCostReduction (m : GhgMAC) (mt : Modeltime) (period : ℤ) : ℚ :=
  if m.costReductionRate ≠ 0 then
    let numberYears := mt.per_to_yr period - m.baseCostYear
    -- only adjust if after baseCostYear
    if numberYears > 0 then
      1 / (1 + m.costReductionRate) ^ numberYears.toNat
    else 1
  else 1

/-- `GhgMAC::getMACValue`: clamps the queried price to at most the curve's
maximum x, queries the curve, and absorbs the failure sentinel into the
value 0 plus an ERROR log entry (the `Bool` component). -/
def GhgMAC.getMACValue (m : GhgMAC) (carbonPrice : ℚ) : ℚ × Bool :=
  let maxCO2Tax := m.macCurve.maxX
  -- so that the getY query will not interpolate beyond the last value
  let effectiveCarbonPrice := min carbonPrice maxCO2Tax
  match m.macCurve.getY effectiveCarbonPrice with
  | none => (0, true)
  | some reduction => (reduction, false)

/-- The curve query without any clamping, with the same sentinel handling
as `getMACValue`; used to state which part of the price domain
`getMACValue` passes through unmodified. -/
def Curve.unclampedQuery (c : Curve) (x : ℚ) : ℚ × Bool :=
  match c.getY x with
  | none => (0, true)
  | some reduction => (reduction, false)

/-- `GhgMAC::findReduction`: the full reduction pipeline for a region and
period. -/
def GhgMAC.findReduction (m : GhgMAC) (mp : Marketplace) (mt : Modeltime)
    (regionName : String) (period : ℤ) : ℚ :=
  let effectiveCarbonPrice : ℚ :=
    match mp.price co2Name regionName period with
    | none => 0
    | some p => p
  -- avoid this calculation if there is no shift to perform
  let effectiveCarbonPrice :=
    if m.fuelShiftRange ≠ 0 then
      m.shiftNatGas mp period regionName effectiveCarbonPrice
    else effectiveCarbonPrice
  let effectiveCarbonPrice :=
    effectiveCarbonPrice * m.shiftCostReduction mt period
  let reduction := (m.getMACValue effectiveCarbonPrice).1
  let reduction :=
    if m.noBelowZero ∧ effectiveCarbonPrice < 0 then 0 else reduction
  let maxCO2Tax := m.macCurve.maxX
  let maxReduction := (m.getMACValue maxCO2Tax).1
  let reduction := reduction * m.adjustPhaseIn period
  -- the source converts the stored year with getper_to_yr
  let finalReductionPeriod := mt.per_to_yr m.finalReductionYear
  if m.finalReduction > maxReduction ∧ finalReductionPeriod > 1 then
    reduction * m.adjustTechCh period finalReductionPeriod maxReduction
  else reduction

/-- The fuel-shift formula as the spec states it (§4.2), with the
constants `0.6` and `0.5 + 0.5 * (maxX - p)/(maxX - minX)` read as real
arithmetic; used to compare the source's integer-division behaviour
against the claimed formula. -/
def GhgMAC.shiftNatGasSpec (m : GhgMAC) (mp : Marketplace) (period : ℤ)
    (regionName : String) (carbonPrice : ℚ) : ℚ :=
  let natGasPrice := mp.getPrice m.curveShiftFuelName regionName period
  let natGasBasePrice := mp.getPrice m.curveShiftFuelName regionName 1
  let priceChangeRatio : ℚ :=
    if natGasPrice ≠ 0 then natGasBasePrice / natGasPrice else 1
  let NORM_FACTOR : ℚ := 3 / 5
  let minCarbonPrice := m.macCurve.minX
  let maxCarbonPrice := m.macCurve.maxX
  let convergenceFactor : ℚ :=
    1 / 2 + (1 / 2 : ℚ)
      * ((maxCarbonPrice - carbonPrice) / (maxCarbonPrice - minCarbonPrice))
  let newCarbonPrice :=
    carbonPrice + NORM_FACTOR * (1 - priceChangeRatio) * m.fuelShiftRange
      * convergenceFactor
  min (max newCarbonPrice minCarbonPrice) maxCarbonPrice

/-- The tech-change cap multiplier as the spec states it (§4.4), with
`1/(finalReductionPeriod-2)` read as exact real arithmetic; used to
compare the source's integer-division behaviour against the claimed
linear ramp. -/
def GhgMAC.adjustTechChSpec (m : GhgMAC) (period finalReductionPeriod : ℤ)
    (maxReduction : ℚ) : ℚ :=
  let change : ℚ := maxReduction / m.finalReduction
  if period ≤ finalReductionPeriod then
    change * (1 / ((finalReductionPeriod : ℚ) - 2)) * ((period : ℚ) - 2)
  else change

/-- The configuration key looked up on the subsector info container in
`BuildingHeatCoolDmdTechnology::adjustForCalibration`. -/
def floorSpaceKey : String := "floorSpace"

/-- The `BuildingHeatCoolDmdTechnology` object: configuration fields, the
internal-gains sign supplied by the concrete heating (+1) or cooling (-1)
variant via `getInternalGainsSign`, and the stored share weight
`shrwts`. -/
structure BuildingHeatCoolDmdTechnology where
  aveInsulation : ℚ
  floorToSurfaceArea : ℚ
  fractionOfYearActive : ℚ
  intGainsMarketName : String
  internalGainsSign : ℚ
  shrwts : ℚ

/-- `BuildingHeatCoolDmdTechnology::getEffectiveInternalGains`: sign times
the internal-gains market price times the fraction of the year active. -/
def BuildingHeatCoolDmdTechnology.getEffectiveInternalGains
    (t : BuildingHeatCoolDmdTechnology) (mp : Marketplace)
    (regionName : String) (period : ℤ) : ℚ :=
  t.internalGainsSign * mp.getPrice t.intGainsMarketName regionName period
    * t.fractionOfYearActive

/-- `BuildingHeatCoolDmdTechnology::adjustForCalibration`: recomputes the
stored share weight from the calibrated unit demand. `subsectorInfo` is
the `IInfo::getDouble` lookup of the parent container and `demandFnPref`
is the base-class `getDemandFnPrefix` virtual, both external to this
file's sources. -/
def BuildingHeatCoolDmdTechnology.adjustForCalibration
    (t : BuildingHeatCoolDmdTechnology) (mp : Marketplace)
    (subSectorDemand : ℚ) (regionName : String) (subsectorInfo : String → ℚ)
    (demandFnPref : String → ℤ → ℚ) (period : ℤ) :
    BuildingHeatCoolDmdTechnology :=
  let unitDemand := subSectorDemand
  let floorSpace := subsectorInfo floorSpaceKey
  let effectiveDemand := unitDemand * floorSpace
  -- now adjust for internal gains
  let effectiveDemand :=
    effectiveDemand - t.getEffectiveInternalGains mp regionName period
  let effectiveDemand := max effectiveDemand 0
  { t with shrwts := (effectiveDemand / floorSpace) / demandFnPref regionName period }

/-! Concrete instances used to exercise the theorems below. -/

/-- A MAC curve over the domain [0, 10] whose query reports the failure
sentinel below the domain and interpolates linearly inside it (the points
(0, 1/2) and (10, 9/10)). -/
def curveA : Curve :=
  { getY := fun x => if x < 0 then none else some (1 / 2 + x / 25)
    minX := 0
    maxX := 10 }

/-- A MAC curve over the domain [0, 100], linear everywhere. -/
def curveB : Curve := { getY := fun x => some (x / 200), minX := 0, maxX := 100 }

/-- A default `GhgMAC` with every optional adjustment disabled. -/
def ghg0 : GhgMAC :=
  { name := ""
    phaseIn := 1
    fuelShiftRange := 0
    costReductionRate := 0
    baseCostYear := 1975
    finalReduction := 0
    finalReductionYear := 2100
    noBelowZero := false
    curveShiftFuelName := ""
    macCurve := curveA }

/-- The identity calendar: period index and calendar year coincide. -/
def mtId : Modeltime := { per_to_yr := fun p => p, yr_to_per := fun y => y }

/-- A reference-fuel market name for the fuel-shift tests. -/
def gasName : String := "natural gas"

/-- A region name for concrete evaluations. -/
def regionA : String := "USA"

/-! Helper lemmas about the phase-in multiplier. -/

lemma adjustPhaseIn_le_one (m : GhgMAC) (period : ℤ) :
    m.adjustPhaseIn period ≤ 1 := by
  unfold GhgMAC.adjustPhaseIn
  by_cases h : ((period : ℚ) - 1 < m.phaseIn) ∧ (1 ≤ m.phaseIn)
  · rw [if_pos h, div_le_one (by linarith [h.2])]
    linarith [h.1]
  · rw [if_neg h]

lemma adjustPhaseIn_mono (m : GhgMAC) (period : ℤ) :
    m.adjustPhaseIn period ≤ m.adjustPhaseIn (period + 1) := by
  unfold GhgMAC.adjustPhaseIn
  by_cases hP : 1 ≤ m.phaseIn
  · have hc : (0 : ℚ) < m.phaseIn := by linarith
    by_cases h2 : ((period + 1 : ℤ) : ℚ) - 1 < m.phaseIn
    · have h1 : ((period : ℤ) : ℚ) - 1 < m.phaseIn := by push_cast at h2 ⊢; linarith
      rw [if_pos (⟨h1, hP⟩ :
            ((period : ℤ) : ℚ) - 1 < m.phaseIn ∧ 1 ≤ m.phaseIn),
        if_pos (⟨h2, hP⟩ :
            ((period + 1 : ℤ) : ℚ) - 1 < m.phaseIn ∧ 1 ≤ m.phaseIn)]
      have hnum : ((period : ℤ) : ℚ) - 1 ≤ ((period + 1 : ℤ) : ℚ) - 1 := by
        push_cast
        linarith
      exact (div_le_div_iff_of_pos_right hc).2 hnum
    · rw [if_neg (show
          ¬(((period + 1 : ℤ) : ℚ) - 1 < m.phaseIn ∧ 1 ≤ m.phaseIn) from
          fun h => h2 h.1)]
      by_cases h1 : ((period : ℤ) : ℚ) - 1 < m.phaseIn
      · rw [if_pos (⟨h1, hP⟩ :
              ((period : ℤ) : ℚ) - 1 < m.phaseIn ∧ 1 ≤ m.phaseIn),
          div_le_one hc]
        linarith
      · rw [if_neg (show
            ¬(((period : ℤ) : ℚ) - 1 < m.phaseIn ∧ 1 ≤ m.phaseIn) from
            fun h => h1 h.1)]
  · rw [if_neg (show
        ¬(((period : ℤ) : ℚ) - 1 < m.phaseIn ∧ 1 ≤ m.phaseIn) from
        fun h => hP h.2),
      if_neg (show
        ¬(((period + 1 : ℤ) : ℚ) - 1 < m.phaseIn ∧ 1 ≤ m.phaseIn) from
        fun h => hP h.2)]

/-- C3: the phase-in multiplier is a pure function of `period` and
`phaseIn`: it is 0 at `period = 1` when `phaseIn ≥ 1`; it equals
`(period-1)/phaseIn` while `period-1 < phaseIn` and `phaseIn ≥ 1`; it
equals exactly 1 once `period - 1 ≥ phaseIn` and whenever `phaseIn < 1`;
and for periods ≥ 1 it is monotone non-decreasing in `period` and bounded
by 1 (saturation). -/
theorem adjustPhaseIn_spec_C3 (m : GhgMAC) (period : ℤ) :
    (1 ≤ m.phaseIn → m.adjustPhaseIn 1 = 0) ∧
    ((period : ℚ) - 1 < m.phaseIn → 1 ≤ m.phaseIn →
      m.adjustPhaseIn period = ((period : ℚ) - 1) / m.phaseIn) ∧
    (m.phaseIn ≤ (period : ℚ) - 1 → m.adjustPhaseIn period = 1) ∧
    (m.phaseIn < 1 → m.adjustPhaseIn period = 1) ∧
    (1 ≤ period → m.adjustPhaseIn period ≤ m.adjustPhaseIn (period + 1)) ∧
    (1 ≤ period → m.adjustPhaseIn period ≤ 1) := by
  refine ⟨?_, ?_, ?_, ?_, fun _ => adjustPhaseIn_mono m period,
    fun _ => adjustPhaseIn_le_one m period⟩
  · intro hP
    unfold GhgMAC.adjustPhaseIn
    rw [if_pos (⟨by push_cast; linarith, hP⟩ :
          (((1 : ℤ) : ℚ) - 1 < m.phaseIn ∧ 1 ≤ m.phaseIn))]
    push_cast
    simp
  · intro h1 h2
    unfold GhgMAC.adjustPhaseIn
    rw [if_pos ⟨h1, h2⟩]
  · intro h
    unfold GhgMAC.adjustPhaseIn
    rw [if_neg (fun hc => absurd hc.1 (not_lt.2 h))]
  · intro h
    unfold GhgMAC.adjustPhaseIn
    rw [if_neg (fun hc => absurd hc.2 (not_le.2 h))]

/-- A MAC object whose curve phases in over three periods. -/
def mC3 : GhgMAC := { ghg0 with phaseIn := 3 }

/-- Witness for C3: with `phaseIn = 3` the multiplier at period 2 is
`(2-1)/3 = 1/3`. -/
theorem adjustPhaseIn_spec_C3_witness : mC3.adjustPhaseIn 2 = 1 / 3 := by
  have h := (adjustPhaseIn_spec_C3 mC3 2).2.1
    (by norm_num [mC3, ghg0]) (by norm_num [mC3, ghg0])
  rw [h]
  norm_num [mC3, ghg0]

/-- C4: the cost-reduction decay factor is 1 whenever
`costReductionRate = 0`; for a positive rate it equals
`1/(1+rate)^years` when the elapsed years since `baseCostYear` are
positive and 1 otherwise, and it is strictly decreasing in the elapsed
years (over nonnegative elapsed years). -/
theorem shiftCostReduction_C4 (m : GhgMAC) (mt : Modeltime) (p p1 p2 : ℤ) :
    (m.costReductionRate = 0 → m.shiftCostReduction mt p = 1) ∧
    (0 < m.costReductionRate →
      ((mt.per_to_yr p - m.baseCostYear > 0 →
        m.shiftCostReduction mt p =
          1 / (1 + m.costReductionRate) ^ (mt.per_to_yr p - m.baseCostYear).toNat) ∧
       (mt.per_to_yr p - m.baseCostYear ≤ 0 → m.shiftCostReduction mt p = 1) ∧
       (0 ≤ mt.per_to_yr p1 - m.baseCostYear →
        mt.per_to_yr p1 - m.baseCostYear < mt.per_to_yr p2 - m.baseCostYear →
        m.shiftCostReduction mt p2 < m.shiftCostReduction mt p1))) := by
  constructor
  · intro h
    unfold GhgMAC.shiftCostReduction
    rw [if_neg (fun hn => hn h)]
  · intro hpos
    have hne : m.costReductionRate ≠ 0 := ne_of_gt hpos
    have hbase : (1 : ℚ) < 1 + m.costReductionRate := by linarith
    refine ⟨?_, ?_, ?_⟩
    · intro hy
      simp only [GhgMAC.shiftCostReduction]
      rw [if_pos hne, if_pos hy]
    · intro hy
      simp only [GhgMAC.shiftCostReduction]
      rw [if_pos hne, if_neg (not_lt.2 hy)]
    · intro hy1 hlt
      have hy2 : mt.per_to_yr p2 - m.baseCostYear > 0 := by omega
      have hf2 : m.shiftCostReduction mt p2 =
          1 / (1 + m.costReductionRate) ^ (mt.per_to_yr p2 - m.baseCostYear).toNat := by
        simp only [GhgMAC.shiftCostReduction]
        rw [if_pos hne, if_pos hy2]
      have hpow2 : (1 : ℚ) <
          (1 + m.costReductionRate) ^ (mt.per_to_yr p2 - m.baseCostYear).toNat := by
        apply one_lt_pow₀ hbase
        omega
      by_cases hy1p : mt.per_to_yr p1 - m.baseCostYear > 0
      · have hf1 : m.shiftCostReduction mt p1 =
            1 / (1 + m.costReductionRate) ^ (mt.per_to_yr p1 - m.baseCostYear).toNat := by
          simp only [GhgMAC.shiftCostReduction]
          rw [if_pos hne, if_pos hy1p]
        rw [hf1, hf2]
        have hpows : (1 + m.costReductionRate) ^ (mt.per_to_yr p1 - m.baseCostYear).toNat <
            (1 + m.costReductionRate) ^ (mt.per_to_yr p2 - m.baseCostYear).toNat := by
          apply pow_lt_pow_right₀ hbase
          omega
        have h1pos : (0 : ℚ) <
            (1 + m.costReductionRate) ^ (mt.per_to_yr p1 - m.baseCostYear).toNat := by
          positivity
        exact one_div_lt_one_div_of_lt h1pos hpows
      · have hf1 : m.shiftCostReduction mt p1 = 1 := by
          simp only [GhgMAC.shiftCostReduction]
          rw [if_pos hne, if_neg hy1p]
        rw [hf1, hf2, div_lt_one (by positivity)]
        exact hpow2

/-- A MAC object with a 10% annual cost-reduction rate anchored at year 0. -/
def mC4 : GhgMAC := { ghg0 with costReductionRate := 1 / 10, baseCostYear := 0 }

/-- Witness for C4: on the identity calendar, the decay factor at period 3
is strictly below the factor at period 1. -/
theorem shiftCostReduction_C4_witness :
    mC4.shiftCostReduction mtId 3 < mC4.shiftCostReduction mtId 1 :=
  ((shiftCostReduction_C4 mC4 mtId 2 1 3).2 (by norm_num [mC4, ghg0])).2.2
    (by norm_num [mC4, ghg0, mtId]) (by norm_num [mC4, ghg0, mtId])

/-- C5: for every curve and every queried price at or above the curve's
maximum x, `getMACValue` returns the same result as at the maximum x: it
never extrapolates above the upper domain bound. -/
theorem getMACValue_upper_clamp_C5 (m : GhgMAC) (p : ℚ)
    (h : m.macCurve.maxX ≤ p) :
    m.getMACValue p = m.getMACValue m.macCurve.maxX := by
  have hmin : min p m.macCurve.maxX = m.macCurve.maxX := min_eq_right h
  simp only [GhgMAC.getMACValue, hmin, min_self]

/-- Witness for C5: on the curve over [0, 10], the query at 20 equals the
query at the maximal x. -/
theorem getMACValue_upper_clamp_C5_witness :
    ghg0.getMACValue 20 = ghg0.getMACValue 10 := by
  have h := getMACValue_upper_clamp_C5 ghg0 20 (by norm_num [ghg0, curveA])
  simpa [ghg0, curveA] using h

/-- C8: whenever the curve query at the clamped price reports the failure
sentinel, `getMACValue` returns 0 and logs an error (the `true` flag);
for every other input it returns the curve's interpolated y at the
clamped price, with no error logged. -/
theorem getMACValue_sentinel_C8 (m : GhgMAC) (p : ℚ) :
    (m.macCurve.getY (min p m.macCurve.maxX) = none →
      m.getMACValue p = (0, true)) ∧
    (∀ y, m.macCurve.getY (min p m.macCurve.maxX) = some y →
      m.getMACValue p = (y, false)) := by
  constructor
  · intro h
    simp [GhgMAC.getMACValue, h]
  · intro y h
    simp [GhgMAC.getMACValue, h]

/-- Witness for C8: the curve over [0, 10] reports the sentinel below its
domain, and the query at -5 is absorbed into the value 0 with an error
logged. -/
theorem getMACValue_sentinel_C8_witness : ghg0.getMACValue (-5) = (0, true) :=
  (getMACValue_sentinel_C8 ghg0 (-5)).1 (by norm_num [ghg0, curveA])

/-- A marketplace whose reference-fuel price is 2 at period 1 and 1 at
every other period, so the price-change ratio is 2. -/
def mpC1 : Marketplace :=
  { price := fun n _ p =>
      if n = gasName then (if p = 1 then some 2 else some 1) else some 0 }

/-- A MAC object with an active fuel shift of range 10 over the curve
domain [0, 100]. -/
def mC1 : GhgMAC :=
  { ghg0 with
    fuelShiftRange := 10
    curveShiftFuelName := gasName
    macCurve := curveB }

/-- C1 (code bug): the source initializers `NORM_FACTOR = 3 / 5` and the
`( 1 / 2 )` factors of `convergenceFactor` are C++ integer divisions that
evaluate to 0, so `shiftNatGas` never moves the carbon price: at carbon
price 50 with price-change ratio 2 and range 10 it returns 50, while the
claimed formula (NORM_FACTOR 0.6, convergence factor
`0.5 + 0.5 * (maxX - p)/(maxX - minX)`) gives 45.5. -/
theorem shiftNatGas_integer_division_bug_C1 :
    mC1.shiftNatGas mpC1 3 regionA 50 = 50 ∧
    mC1.shiftNatGasSpec mpC1 3 regionA 50 = 91 / 2 ∧
    (50 : ℚ) ≠ 91 / 2 := by
  have h35 : (3 : ℤ).tdiv 5 = 0 := by decide
  have h12 : (1 : ℤ).tdiv 2 = 0 := by decide
  refine ⟨?_, ?_, by norm_num⟩
  · simp [GhgMAC.shiftNatGas, mC1, ghg0, curveB, mpC1, Marketplace.getPrice,
      gasName, regionA, h35, h12]
    norm_num
  · simp [GhgMAC.shiftNatGasSpec, mC1, ghg0, curveB, mpC1, Marketplace.getPrice,
      gasName, regionA]
    norm_num

/-- A MAC object with a final-reduction target of 1. -/
def mC2 : GhgMAC := { ghg0 with finalReduction := 1 }

/-- C2 (code bug): `1 / ( finalReductionPeriod - 2 )` is a C++ integer
division, so for `finalReductionPeriod = 4` and `period = 3` the
multiplier is `change * 0 * 1 = 0`, while the claimed exact-real linear
ramp gives `change * (1/2) * 1 = 1/4` for `change = 1/2`. -/
theorem adjustTechCh_integer_division_bug_C2 :
    mC2.adjustTechCh 3 4 (1 / 2) = 0 ∧
    mC2.adjustTechChSpec 3 4 (1 / 2) = 1 / 4 ∧
    (0 : ℚ) ≠ 1 / 4 := by
  have h12 : (1 : ℤ).tdiv 2 = 0 := by decide
  refine ⟨?_, ?_, by norm_num⟩
  · simp [GhgMAC.adjustTechCh, mC2, ghg0, h12]
  · simp [GhgMAC.adjustTechChSpec, mC2, ghg0]
    norm_num

/-- C6 counterexample: `getMACValue` performs no lower clamp. On the curve
over [0, 10] (which reports its sentinel below the domain), the query at
-5 returns 0 with an error, not the curve value 1/2 at the minimum x. -/
theorem getMACValue_no_lower_clamp_counterexample_C6 :
    (-5 : ℚ) < ghg0.macCurve.minX ∧
    ghg0.getMACValue (-5) ≠ ghg0.getMACValue ghg0.macCurve.minX := by
  refine ⟨by norm_num [ghg0, curveA], ?_⟩
  simp [GhgMAC.getMACValue, ghg0, curveA]

/-- C6 (amended): among the model's price-based lookups only `shiftNatGas`
clamps to the full domain `[getMinX, getMaxX]`; `getMACValue` clamps only
from above: any price at most `getMaxX` — including prices below
`getMinX` — is passed to the curve query unmodified. -/
theorem clamp_domain_C6_amended (m : GhgMAC) (mp : Marketplace) (period : ℤ)
    (regionName : String) (carbonPrice : ℚ) (q : ℚ)
    (hdom : m.macCurve.minX ≤ m.macCurve.maxX) :
    (m.macCurve.minX ≤ m.shiftNatGas mp period regionName carbonPrice ∧
      m.shiftNatGas mp period regionName carbonPrice ≤ m.macCurve.maxX) ∧
    (q ≤ m.macCurve.maxX → m.getMACValue q = m.macCurve.unclampedQuery q) := by
  refine ⟨⟨?_, ?_⟩, ?_⟩
  · simp only [GhgMAC.shiftNatGas]
    exact le_min (le_max_right _ _) hdom
  · simp only [GhgMAC.shiftNatGas]
    exact min_le_right _ _
  · intro hq
    have hmin : min q m.macCurve.maxX = q := min_eq_left hq
    simp only [GhgMAC.getMACValue, Curve.unclampedQuery, hmin]

/-- Witness for the amended C6: a concrete fuel-shift output stays inside
the curve domain [0, 10]. -/
theorem clamp_domain_C6_amended_witness :
    ghg0.macCurve.minX ≤ ghg0.shiftNatGas mpC1 3 regionA 50 ∧
    ghg0.shiftNatGas mpC1 3 regionA 50 ≤ ghg0.macCurve.maxX :=
  (clamp_domain_C6_amended ghg0 mpC1 3 regionA 50 0
    (by norm_num [ghg0, curveA])).1

/-- A linear MAC curve over [0, 10] with value x/100. -/
def curveC7 : Curve := { getY := fun x => some (x / 100), minX := 0, maxX := 10 }

/-- Modelled from the spec: a concrete calendar with 15-year periods
starting at 1975, so `per_to_yr p = 1975 + 15 p` and the period index of a
calendar year is `(y - 1975) / 15` (truncated). -/
def mtC7 : Modeltime :=
  { per_to_yr := fun p => 1975 + 15 * p
    yr_to_per := fun y => (y - 1975).tdiv 15 }

/-- A marketplace with a CO2 price of 5 everywhere. -/
def mpC7 : Marketplace :=
  { price := fun n _ _ => if n = co2Name then some 5 else some 0 }

/-- A MAC object whose final-reduction year 1975 corresponds to period 0. -/
def mC7 : GhgMAC :=
  { ghg0 with
    macCurve := curveC7
    finalReduction := 1 / 2
    finalReductionYear := 1975 }

/-- C7 (code bug): `findReduction` converts the stored calendar year with
`getper_to_yr` (period-to-year) instead of the year-to-period direction,
so with `finalReductionYear = 1975` — period index 0, for which the claim
says the cap must not apply — the code computes
`finalReductionPeriod = 1975 + 15 * 1975 = 31600 > 1` and applies the
tech-change cap: the returned reduction is 0 instead of the uncapped
`1/20`. -/
theorem findReduction_wrong_year_conversion_C7 :
    mtC7.yr_to_per mC7.finalReductionYear ≤ 1 ∧
    mC7.finalReduction > (mC7.getMACValue mC7.macCurve.maxX).1 ∧
    (mC7.getMACValue 5).1 * mC7.adjustPhaseIn 3 = 1 / 20 ∧
    mC7.findReduction mpC7 mtC7 regionA 3 = 0 := by
  refine ⟨?_, ?_, ?_, ?_⟩
  · simp [mtC7, mC7, ghg0]
  · norm_num [GhgMAC.getMACValue, mC7, ghg0, curveC7]
  · norm_num [GhgMAC.getMACValue, GhgMAC.adjustPhaseIn, mC7, ghg0, curveC7]
  · have h1 : (1 : ℤ).tdiv 31598 = 0 := by decide
    simp [GhgMAC.findReduction, GhgMAC.getMACValue, GhgMAC.adjustPhaseIn,
      GhgMAC.adjustTechCh, GhgMAC.shiftCostReduction, mC7, ghg0, curveC7, mpC7,
      mtC7, co2Name, regionA, h1]
    norm_num

/-- C9: the calibration adjustment stores the weight
`(max (unitDemand * floorSpace - sign * price * fractionOfYearActive) 0
/ floorSpace) / demandFnPref`: effective demand is floored at 0 before
the division. -/
theorem adjustForCalibration_C9 (t : BuildingHeatCoolDmdTechnology)
    (mp : Marketplace) (subSectorDemand : ℚ) (regionName : String)
    (subsectorInfo : String → ℚ) (demandFnPref : String → ℤ → ℚ)
    (period : ℤ) :
    (t.adjustForCalibration mp subSectorDemand regionName subsectorInfo
        demandFnPref period).shrwts =
      (max (subSectorDemand * subsectorInfo floorSpaceKey -
          t.internalGainsSign *
            mp.getPrice t.intGainsMarketName regionName period *
            t.fractionOfYearActive) 0
        / subsectorInfo floorSpaceKey) / demandFnPref regionName period := rfl

/-- C10: `clone` preserves the eight configuration fields and the curve
value (the deep copy has the same points), and consequently
`findReduction` agrees between the clone and the original on every
marketplace, calendar, region and period. -/
theorem clone_preserves_C10 (m : GhgMAC) (mp : Marketplace) (mt : Modeltime)
    (regionName : String) (period : ℤ) :
    m.clone.phaseIn = m.phaseIn ∧
    m.clone.fuelShiftRange = m.fuelShiftRange ∧
    m.clone.costReductionRate = m.costReductionRate ∧
    m.clone.baseCostYear = m.baseCostYear ∧
    m.clone.finalReduction = m.finalReduction ∧
    m.clone.finalReductionYear = m.finalReductionYear ∧
    m.clone.noBelowZero = m.noBelowZero ∧
    m.clone.curveShiftFuelName = m.curveShiftFuelName ∧
    m.clone.macCurve = m.macCurve ∧
    m.clone.findReduction mp mt regionName period =
      m.findReduction mp mt regionName period :=
  ⟨rfl, rfl, rfl, rfl, rfl, rfl, rfl, rfl, rfl, rfl⟩
